import Mathlib

/-
Verification of the DSS-Backend soil-analysis relay server (src/server.js).

The server exposes a single route, POST /analyze-soil.  The handler
destructures nine fields from the request body, rejects the request with
HTTP 400 when any of the eight numeric fields is undefined or the crop
name is falsy, otherwise interpolates the fields into a fixed prompt
template, performs exactly one upstream call (callGemini), and maps the
outcome to an HTTP response: 200 with the extracted candidate text (or a
fixed fallback), 429 when the upstream error carries status 429, and 500
otherwise.

The embedding below models JavaScript runtime values as the inductive
type JSValue, the inbound payload as RequestBody, the upstream success
body and the upstream error object as nested structures with Option
fields mirroring optional chaining, and the route handler as a pure
function from the payload and the upstream outcome to the HTTP response
paired with the list of prompts sent upstream (the call trace).
-/

/-- JavaScript runtime values that can appear in the request payload and
in the upstream response fields: undefined, null, numbers, strings and
booleans.  Numbers are modelled as rationals; every finite JavaScript
number is such a rational.  (NaN is not modelled: no claim involves it.) -/
inductive JSValue where
  | undefined : JSValue
  | null : JSValue
  | num : ℚ → JSValue
  | str : String → JSValue
  | boolean : Bool → JSValue
deriving DecidableEq, Repr

/-- JavaScript truthiness: undefined, null, 0, the empty string and false
are falsy; every other modelled value is truthy. -/
def JSValue.truthy : JSValue → Bool
  | JSValue.undefined => false
  | JSValue.null => false
  | JSValue.num q => if q = 0 then false else true
  | JSValue.str s => if s = "" then false else true
  | JSValue.boolean b => b

/-- Strict comparison with undefined, as in the validation checks of the
form field === undefined on lines 64 to 71 of src/server.js. -/
def JSValue.isUndefined : JSValue → Bool
  | JSValue.undefined => true
  | _ => false

/-- Smallest exponent k such that q times 10 to the k is an integer,
searched up to 100; every finite JavaScript number admits such a k. -/
def decimalExponent (q : ℚ) : Option Nat :=
  (List.range 100).find? fun k => (q * (10 : ℚ) ^ k).den = 1

/-- Pads a digit string with leading zero characters up to length n. -/
def padLeftZeros (s : String) (n : Nat) : String :=
  String.mk (List.replicate (n - s.length) '0') ++ s

/-- Rendering of a finite JavaScript number to its decimal string, as
performed by template-literal interpolation.  Integers print with no
decimal point; other finite decimals print with the shortest exact
fractional part (the search bound makes the final clause unreachable for
values a JavaScript number can hold). -/
def jsNumToString (q : ℚ) : String :=
  match decimalExponent q with
  | some 0 => toString q.num
  | some (k + 1) =>
      let sign := if q < 0 then "-" else ""
      let m := (|q| * (10 : ℚ) ^ (k + 1)).num.toNat
      let p := 10 ^ (k + 1)
      sign ++ toString (m / p) ++ "." ++ padLeftZeros (toString (m % p)) (k + 1)
  | none => toString q.num ++ "/" ++ toString q.den

/-- String produced when a value is interpolated into a template literal,
following the JavaScript ToString conversion on the modelled values. -/
def JSValue.interpolate : JSValue → String
  | JSValue.undefined => "undefined"
  | JSValue.null => "null"
  | JSValue.num q => jsNumToString q
  | JSValue.str s => s
  | JSValue.boolean b => if b then "true" else "false"

/-- The nine properties destructured from req.body on lines 51 to 61 of
src/server.js.  A property absent from the inbound JSON destructures to
undefined, so absence is represented by JSValue.undefined. -/
structure RequestBody where
  temperature : JSValue
  humidity : JSValue
  moisture : JSValue
  nitrogen : JSValue
  phosphorus : JSValue
  potassium : JSValue
  ph : JSValue
  rainfall : JSValue
  cropName : JSValue
deriving DecidableEq, Repr

/-- The validation condition on lines 63 to 73 of src/server.js: each of
the eight numeric fields is compared strictly against undefined, and the
crop name is tested for falsiness. -/
def missingRequiredFields (b : RequestBody) : Bool :=
  b.temperature.isUndefined || b.humidity.isUndefined || b.moisture.isUndefined ||
  b.nitrogen.isUndefined || b.phosphorus.isUndefined || b.potassium.isUndefined ||
  b.ph.isUndefined || b.rainfall.isUndefined || !b.cropName.truthy

/-- The prompt template on lines 79 to 102 of src/server.js, with the
nine payload fields interpolated by JavaScript ToString conversion. -/
def buildPrompt (b : RequestBody) : String :=
  "\nYou are an expert soil scientist and crop advisor. Analyze the following soil and environmental data to assess if the conditions are suitable for growing "
    ++ b.cropName.interpolate
    ++ ". Then, provide recommendations for improvement.\n\nYour analysis MUST be concise and practical.\n\n---\n[DATA]\n🌡️ Temperature: "
    ++ b.temperature.interpolate
    ++ " °C\n💧 Humidity: "
    ++ b.humidity.interpolate
    ++ " %\n🌱 Soil Moisture: "
    ++ b.moisture.interpolate
    ++ "\n🧪 Nitrogen (N): "
    ++ b.nitrogen.interpolate
    ++ " ppm\n🧪 Phosphorus (P): "
    ++ b.phosphorus.interpolate
    ++ " ppm\n🧪 Potassium (K): "
    ++ b.potassium.interpolate
    ++ " ppm\n⚗️ pH: "
    ++ b.ph.interpolate
    ++ "\n🌧️ Rainfall: "
    ++ b.rainfall.interpolate
    ++ " mm\n\n---\n[REQUEST]\nProvide a short report in Markdown format with these exact sections:\n1.  **Soil Health Status:** (Brief overview of N, P, K, and pH)\n2.  **"
    ++ b.cropName.interpolate
    ++ " Suitability:** (Clear \"Yes\", \"No\", or \"Marginal\" with reason)\n3.  **Recommendations:** (Bulleted list of 2-3 top actions for fertilizer or amendments)\n4.  **Summary:** (A single-line conclusion)\n"

/-- One part of the upstream success body; the text property may be
absent or hold any value. -/
structure GeminiPart where
  text : Option JSValue
deriving DecidableEq, Repr

/-- The content object of one candidate; the parts array may be absent. -/
structure GeminiContent where
  parts : Option (List GeminiPart)
deriving DecidableEq, Repr

/-- One candidate of the upstream success body; content may be absent. -/
structure GeminiCandidate where
  content : Option GeminiContent
deriving DecidableEq, Repr

/-- The data object of the upstream success body; the candidates array
may be absent. -/
structure GeminiResponseData where
  candidates : Option (List GeminiCandidate)
deriving DecidableEq, Repr

/-- The axios success response as seen by the handler; only the data
property is read. -/
structure AxiosResponse where
  data : Option GeminiResponseData
deriving DecidableEq, Repr

/-- The nested error detail of an upstream error body. -/
structure UpstreamErrorInfo where
  message : Option JSValue
deriving DecidableEq, Repr

/-- The data object attached to an upstream error response. -/
structure UpstreamErrorData where
  error : Option UpstreamErrorInfo
deriving DecidableEq, Repr

/-- The HTTP response attached to an upstream error, when the upstream
answered at all; absent for pure network failures. -/
structure ErrorResponse where
  status : Nat
  data : Option UpstreamErrorData
deriving DecidableEq, Repr

/-- The error object caught by the route handler: its message string and
the optional HTTP response from the upstream. -/
structure JsError where
  message : String
  response : Option ErrorResponse
deriving DecidableEq, Repr

/-- The optional chain aiRes.data candidates first element content parts
first element text on lines 107 to 108 of src/server.js; any absent link
yields undefined. -/
def rawCandidateText (r : AxiosResponse) : JSValue :=
  match r.data with
  | none => JSValue.undefined
  | some d =>
    match d.candidates with
    | none => JSValue.undefined
    | some cs =>
      match cs.head? with
      | none => JSValue.undefined
      | some c =>
        match c.content with
        | none => JSValue.undefined
        | some ct =>
          match ct.parts with
          | none => JSValue.undefined
          | some ps =>
            match ps.head? with
            | none => JSValue.undefined
            | some p =>
              match p.text with
              | none => JSValue.undefined
              | some t => t

/-- The aiText value on lines 107 to 109 of src/server.js: the extracted
candidate text when truthy, else the fixed fallback string. -/
def aiText (r : AxiosResponse) : JSValue :=
  if (rawCandidateText r).truthy then rawCandidateText r
  else JSValue.str "No response from Gemini."

/-- The check error.response status strictly equal to 429 on line 114 of
src/server.js; false when the error carries no response. -/
def JsError.is429 (e : JsError) : Bool :=
  match e.response with
  | some r => decide (r.status = 429)
  | none => false

/-- The optional chain error.response data error message on line 118 of
src/server.js; any absent link yields undefined. -/
def JsError.quotaMessageRaw (e : JsError) : JSValue :=
  match e.response with
  | none => JSValue.undefined
  | some r =>
    match r.data with
    | none => JSValue.undefined
    | some d =>
      match d.error with
      | none => JSValue.undefined
      | some i =>
        match i.message with
        | none => JSValue.undefined
        | some m => m

/-- The message field of the 429 response on line 118 of src/server.js:
the upstream quota message when truthy, else the fixed generic string. -/
def JsError.quotaMessage (e : JsError) : JSValue :=
  if e.quotaMessageRaw.truthy then e.quotaMessageRaw
  else JSValue.str "Quota exceeded. Please wait 1 minute and try again."

/-- The JSON bodies the route can produce: the fixed 400 validation
error, the 200 success body with success flag, echoed crop and analysis
text, and the error bodies carrying an error string and a message. -/
inductive ResponseBody where
  | validationError : String → ResponseBody
  | analysisOk : Bool → JSValue → JSValue → ResponseBody
  | upstreamError : String → JSValue → ResponseBody
deriving DecidableEq, Repr

/-- An HTTP response: status code and JSON body. -/
structure HttpResponse where
  status : Nat
  body : ResponseBody
deriving DecidableEq, Repr

/-- The helper callGemini on lines 28 to 44 of src/server.js: a single
attempt with no retry; on success the axios response is returned, on
failure the error is logged and rethrown unchanged. -/
def callGemini (result : Except JsError AxiosResponse) : Except JsError AxiosResponse :=
  match result with
  | Except.ok r => Except.ok r
  | Except.error e => Except.error e

/-- The POST /analyze-soil route handler on lines 49 to 128 of
src/server.js, as a function of the destructured payload and the outcome
of the single upstream call.  It returns the HTTP response together with
the list of prompts sent upstream: empty when validation fails, and the
one synthesized prompt otherwise. -/
def handleAnalyzeSoil (b : RequestBody) (upstream : Except JsError AxiosResponse) :
    HttpResponse × List String :=
  if missingRequiredFields b then
    (⟨400, ResponseBody.validationError "Missing required fields in the request body."⟩, [])
  else
    let prompt := buildPrompt b
    match callGemini upstream with
    | Except.ok aiRes =>
        (⟨200, ResponseBody.analysisOk true b.cropName (aiText aiRes)⟩, [prompt])
    | Except.error e =>
        if e.is429 then
          (⟨429, ResponseBody.upstreamError
              "Gemini API rate limit exceeded. (RESOURCE_EXHAUSTED)" e.quotaMessage⟩,
            [prompt])
        else
          (⟨500, ResponseBody.upstreamError
              "Internal Server Error. Please check your request or server logs."
              (JSValue.str e.message)⟩,
            [prompt])

/-- Sample valid payload from the end-to-end example of the spec. -/
def sampleBody : RequestBody :=
  ⟨JSValue.num 25, JSValue.num 60, JSValue.num 40, JSValue.num 50, JSValue.num 30,
    JSValue.num 20, JSValue.num (13 / 2), JSValue.num 100, JSValue.str "rice"⟩

/-- Stubbed upstream success whose first candidate text is the string
Yes, suitable. -/
def stubResp : AxiosResponse :=
  ⟨some ⟨some [⟨some ⟨some [⟨some (JSValue.str "Yes, suitable.")⟩]⟩⟩]⟩⟩

/-- Upstream network failure: no HTTP response attached. -/
def netErr : JsError := ⟨"Network Error", none⟩

/-- Upstream quota failure with status 429 and a quota message. -/
def quotaErr : JsError :=
  ⟨"Request failed with status code 429",
    some ⟨429, some ⟨some ⟨some (JSValue.str "You exceeded your current quota.")⟩⟩⟩⟩

lemma JSValue.isUndefined_eq_false {v : JSValue} (h : v ≠ JSValue.undefined) :
    v.isUndefined = false := by
  cases v <;> simp_all [JSValue.isUndefined]

lemma handleAnalyzeSoil_trace (b : RequestBody) (u : Except JsError AxiosResponse) :
    (handleAnalyzeSoil b u).2 = if missingRequiredFields b then [] else [buildPrompt b] := by
  cases hm : missingRequiredFields b with
  | true => simp [handleAnalyzeSoil, hm]
  | false =>
      cases u with
      | ok r => simp [handleAnalyzeSoil, hm, callGemini]
      | error e =>
          by_cases h : e.is429 = true <;>
            simp [handleAnalyzeSoil, hm, callGemini, h]

/-- C1: a payload missing any one of the nine required fields yields the
HTTP 400 response with the fixed missing-fields body and no upstream
call; a payload with all eight numeric fields defined (zero included)
and a non-empty crop name passes validation and forwards the synthesized
prompt upstream. -/
theorem analyzeSoil_required_field_validation (b : RequestBody)
    (u : Except JsError AxiosResponse) :
    ((b.temperature = JSValue.undefined ∨ b.humidity = JSValue.undefined ∨
      b.moisture = JSValue.undefined ∨ b.nitrogen = JSValue.undefined ∨
      b.phosphorus = JSValue.undefined ∨ b.potassium = JSValue.undefined ∨
      b.ph = JSValue.undefined ∨ b.rainfall = JSValue.undefined ∨
      b.cropName = JSValue.undefined) →
      handleAnalyzeSoil b u =
        (⟨400, ResponseBody.validationError "Missing required fields in the request body."⟩,
          [])) ∧
    ((b.temperature ≠ JSValue.undefined ∧ b.humidity ≠ JSValue.undefined ∧
      b.moisture ≠ JSValue.undefined ∧ b.nitrogen ≠ JSValue.undefined ∧
      b.phosphorus ≠ JSValue.undefined ∧ b.potassium ≠ JSValue.undefined ∧
      b.ph ≠ JSValue.undefined ∧ b.rainfall ≠ JSValue.undefined ∧
      (∃ s, s ≠ "" ∧ b.cropName = JSValue.str s)) →
      (handleAnalyzeSoil b u).2 = [buildPrompt b]) := by
  constructor
  · intro h
    have hm : missingRequiredFields b = true := by
      rcases h with h | h | h | h | h | h | h | h | h <;>
        simp [missingRequiredFields, h, JSValue.isUndefined, JSValue.truthy]
    simp [handleAnalyzeSoil, hm]
  · rintro ⟨h1, h2, h3, h4, h5, h6, h7, h8, s, hs, h9⟩
    have hm : missingRequiredFields b = false := by
      simp [missingRequiredFields, JSValue.isUndefined_eq_false h1,
        JSValue.isUndefined_eq_false h2, JSValue.isUndefined_eq_false h3,
        JSValue.isUndefined_eq_false h4, JSValue.isUndefined_eq_false h5,
        JSValue.isUndefined_eq_false h6, JSValue.isUndefined_eq_false h7,
        JSValue.isUndefined_eq_false h8, h9, JSValue.truthy, hs]
    rw [handleAnalyzeSoil_trace, hm]
    simp

/-- C1 witness: the sample payload with rainfall removed is rejected
with the fixed 400 body, and the complete sample payload forwards its
prompt. -/
theorem analyzeSoil_required_field_validation_witness :
    (handleAnalyzeSoil
        ⟨JSValue.num 25, JSValue.num 60, JSValue.num 40, JSValue.num 50, JSValue.num 30,
          JSValue.num 20, JSValue.num (13 / 2), JSValue.undefined, JSValue.str "rice"⟩
        (Except.error netErr) =
      (⟨400, ResponseBody.validationError "Missing required fields in the request body."⟩,
        [])) ∧
    (handleAnalyzeSoil sampleBody (Except.error netErr)).2 = [buildPrompt sampleBody] :=
  ⟨(analyzeSoil_required_field_validation _ _).1
      (Or.inr (Or.inr (Or.inr (Or.inr (Or.inr (Or.inr (Or.inr (Or.inl rfl)))))))),
    (analyzeSoil_required_field_validation sampleBody _).2
      ⟨by simp [sampleBody], by simp [sampleBody], by simp [sampleBody], by simp [sampleBody],
        by simp [sampleBody], by simp [sampleBody], by simp [sampleBody], by simp [sampleBody],
        "rice", by simp, by simp [sampleBody]⟩⟩

/-- C6: the prompt trace of the handler does not depend on the upstream
outcome, so two runs on the same payload forward byte-identical prompt
text; the prompt is a pure function of the nine payload fields. -/
theorem analyzeSoil_prompt_deterministic (b : RequestBody)
    (u₁ u₂ : Except JsError AxiosResponse) :
    (handleAnalyzeSoil b u₁).2 = (handleAnalyzeSoil b u₂).2 := by
  rw [handleAnalyzeSoil_trace, handleAnalyzeSoil_trace]

/-- C7: at most one upstream call is made per inbound request: none when
validation fails, exactly one when it passes, whatever the outcome of
that single call. -/
theorem analyzeSoil_single_upstream_call (b : RequestBody)
    (u : Except JsError AxiosResponse) :
    (handleAnalyzeSoil b u).2.length ≤ 1 ∧
    (missingRequiredFields b = true → (handleAnalyzeSoil b u).2 = []) ∧
    (missingRequiredFields b = false → (handleAnalyzeSoil b u).2.length = 1) := by
  rw [handleAnalyzeSoil_trace]
  cases hm : missingRequiredFields b <;> simp

/-- C7 witness: the invalid empty payload makes no upstream call, and
the sample payload makes exactly one. -/
theorem analyzeSoil_single_upstream_call_witness :
    (handleAnalyzeSoil
        ⟨JSValue.undefined, JSValue.undefined, JSValue.undefined, JSValue.undefined,
          JSValue.undefined, JSValue.undefined, JSValue.undefined, JSValue.undefined,
          JSValue.undefined⟩
        (Except.error netErr)).2 = [] ∧
    (handleAnalyzeSoil sampleBody (Except.ok stubResp)).2.length = 1 :=
  ⟨(analyzeSoil_single_upstream_call _ _).2.1 rfl,
    (analyzeSoil_single_upstream_call sampleBody _).2.2 rfl⟩

lemma handleAnalyzeSoil_ok (b : RequestBody) (r : AxiosResponse)
    (hv : missingRequiredFields b = false) :
    handleAnalyzeSoil b (Except.ok r) =
      (⟨200, ResponseBody.analysisOk true b.cropName (aiText r)⟩, [buildPrompt b]) := by
  simp [handleAnalyzeSoil, hv, callGemini]

/-- C2: when the single upstream call fails with an error carrying HTTP
status 429, the route answers 429 (never 500) with the fixed rate-limit
error string; the message field is the upstream quota message verbatim
when that message is a non-empty string, else the fixed generic string. -/
theorem analyzeSoil_429_rate_limit (b : RequestBody) (e : JsError) (r : ErrorResponse)
    (hv : missingRequiredFields b = false)
    (hr : e.response = some r) (h429 : r.status = 429) :
    (handleAnalyzeSoil b (Except.error e)).1.status = 429 ∧
    (handleAnalyzeSoil b (Except.error e)).1.body =
      ResponseBody.upstreamError
        "Gemini API rate limit exceeded. (RESOURCE_EXHAUSTED)" e.quotaMessage ∧
    (∀ s : String, s ≠ "" → e.quotaMessageRaw = JSValue.str s →
      e.quotaMessage = JSValue.str s) ∧
    (e.quotaMessageRaw = JSValue.undefined →
      e.quotaMessage = JSValue.str "Quota exceeded. Please wait 1 minute and try again.") := by
  have h : e.is429 = true := by simp [JsError.is429, hr, h429]
  refine ⟨?_, ?_, ?_, ?_⟩
  · simp [handleAnalyzeSoil, hv, callGemini, h]
  · simp [handleAnalyzeSoil, hv, callGemini, h]
  · intro s hs hraw
    simp [JsError.quotaMessage, hraw, JSValue.truthy, hs]
  · intro hraw
    simp [JsError.quotaMessage, hraw, JSValue.truthy]

/-- C2 witness: the quota error with status 429 and quota text yields a
429 response surfacing the quota text verbatim. -/
theorem analyzeSoil_429_rate_limit_witness :
    (handleAnalyzeSoil sampleBody (Except.error quotaErr)).1.status = 429 ∧
    (handleAnalyzeSoil sampleBody (Except.error quotaErr)).1.body =
      ResponseBody.upstreamError
        "Gemini API rate limit exceeded. (RESOURCE_EXHAUSTED)"
        (JSValue.str "You exceeded your current quota.") := by
  have h := analyzeSoil_429_rate_limit sampleBody quotaErr
      ⟨429, some ⟨some ⟨some (JSValue.str "You exceeded your current quota.")⟩⟩⟩
      rfl rfl rfl
  refine ⟨h.1, ?_⟩
  rw [h.2.1, h.2.2.1 "You exceeded your current quota." (by simp) rfl]

/-- C3: when the single upstream call fails with any error that does not
carry HTTP status 429 (a pure network failure included), the route
answers 500 with the fixed internal-error string and a message equal to
the message text of the underlying error. -/
theorem analyzeSoil_other_error_500 (b : RequestBody) (e : JsError)
    (hv : missingRequiredFields b = false)
    (h : e.response = none ∨ ∃ r, e.response = some r ∧ r.status ≠ 429) :
    (handleAnalyzeSoil b (Except.error e)).1 =
      ⟨500, ResponseBody.upstreamError
        "Internal Server Error. Please check your request or server logs."
        (JSValue.str e.message)⟩ := by
  have h429 : e.is429 = false := by
    rcases h with h | ⟨r, hr, hs⟩ <;> simp [JsError.is429, *]
  simp [handleAnalyzeSoil, hv, callGemini, h429]

/-- C3 witness: a network failure with no upstream response yields the
500 response carrying the underlying message. -/
theorem analyzeSoil_other_error_500_witness :
    missingRequiredFields sampleBody = false ∧
    (handleAnalyzeSoil sampleBody (Except.error netErr)).1 =
      ⟨500, ResponseBody.upstreamError
        "Internal Server Error. Please check your request or server logs."
        (JSValue.str "Network Error")⟩ :=
  ⟨rfl, analyzeSoil_other_error_500 sampleBody netErr rfl (Or.inl rfl)⟩

/-- C4: when the upstream call succeeds and the first candidate, first
content part carries a non-empty text string, the analysis field of the
200 response equals exactly that text. -/
theorem analyzeSoil_analysis_echoes_text (b : RequestBody) (r : AxiosResponse) (s : String)
    (hv : missingRequiredFields b = false)
    (ht : rawCandidateText r = JSValue.str s) (hs : s ≠ "") :
    (handleAnalyzeSoil b (Except.ok r)).1 =
      ⟨200, ResponseBody.analysisOk true b.cropName (JSValue.str s)⟩ := by
  have ha : aiText r = JSValue.str s := by
    simp [aiText, ht, JSValue.truthy, hs]
  rw [handleAnalyzeSoil_ok b r hv, ha]

/-- C4 witness: the stub response with text Yes, suitable. yields that
exact analysis text. -/
theorem analyzeSoil_analysis_echoes_text_witness :
    (handleAnalyzeSoil sampleBody (Except.ok stubResp)).1 =
      ⟨200, ResponseBody.analysisOk true (JSValue.str "rice")
        (JSValue.str "Yes, suitable.")⟩ :=
  analyzeSoil_analysis_echoes_text sampleBody stubResp "Yes, suitable." rfl rfl (by simp)

/-- C5: when the upstream call succeeds but the nested candidate text
path is absent, the route still answers 200 with success true and the
fixed fallback analysis string; the absent text is not an error. -/
theorem analyzeSoil_missing_text_fallback (b : RequestBody) (r : AxiosResponse)
    (hv : missingRequiredFields b = false)
    (ht : rawCandidateText r = JSValue.undefined) :
    (handleAnalyzeSoil b (Except.ok r)).1.status = 200 ∧
    (handleAnalyzeSoil b (Except.ok r)).1.body =
      ResponseBody.analysisOk true b.cropName (JSValue.str "No response from Gemini.") := by
  have ha : aiText r = JSValue.str "No response from Gemini." := by
    simp [aiText, ht, JSValue.truthy]
  rw [handleAnalyzeSoil_ok b r hv, ha]
  exact ⟨rfl, rfl⟩

/-- C5 witness: an upstream success body with no candidates yields the
200 fallback response. -/
theorem analyzeSoil_missing_text_fallback_witness :
    (handleAnalyzeSoil sampleBody (Except.ok ⟨some ⟨some []⟩⟩)).1.status = 200 ∧
    (handleAnalyzeSoil sampleBody (Except.ok ⟨some ⟨some []⟩⟩)).1.body =
      ResponseBody.analysisOk true (JSValue.str "rice")
        (JSValue.str "No response from Gemini.") :=
  analyzeSoil_missing_text_fallback sampleBody ⟨some ⟨some []⟩⟩ rfl rfl

/-- C8: on any valid payload whose upstream call succeeds, the route
answers 200 with the body success true, crop echoing the payload crop
name unchanged, and analysis the extracted text. -/
theorem analyzeSoil_success_response_shape (b : RequestBody) (r : AxiosResponse)
    (hv : missingRequiredFields b = false) :
    (handleAnalyzeSoil b (Except.ok r)).1 =
      ⟨200, ResponseBody.analysisOk true b.cropName (aiText r)⟩ := by
  rw [handleAnalyzeSoil_ok b r hv]

/-- C8 witness: the end-to-end example payload with crop name rice and a
stubbed upstream text Yes, suitable. yields exactly the body with
success true, crop rice and analysis Yes, suitable. -/
theorem analyzeSoil_success_response_shape_witness :
    (handleAnalyzeSoil sampleBody (Except.ok stubResp)).1 =
      ⟨200, ResponseBody.analysisOk true (JSValue.str "rice")
        (JSValue.str "Yes, suitable.")⟩ := by
  have h := analyzeSoil_success_response_shape sampleBody stubResp rfl
  rw [h]
  rfl

/-- C9: when the upstream call succeeds and the first candidate text is
present but equal to the empty string, the analysis field is the fixed
fallback string and not the empty string, because the extraction tests
truthiness rather than presence. -/
theorem analyzeSoil_empty_text_falls_back (b : RequestBody) (r : AxiosResponse)
    (hv : missingRequiredFields b = false)
    (ht : rawCandidateText r = JSValue.str "") :
    (handleAnalyzeSoil b (Except.ok r)).1.body =
      ResponseBody.analysisOk true b.cropName (JSValue.str "No response from Gemini.") := by
  have ha : aiText r = JSValue.str "No response from Gemini." := by
    simp [aiText, ht, JSValue.truthy]
  rw [handleAnalyzeSoil_ok b r hv, ha]

/-- C9 witness: an upstream body whose first candidate text is the empty
string yields the fallback analysis. -/
theorem analyzeSoil_empty_text_falls_back_witness :
    (handleAnalyzeSoil sampleBody
        (Except.ok ⟨some ⟨some [⟨some ⟨some [⟨some (JSValue.str "")⟩]⟩⟩]⟩⟩)).1.body =
      ResponseBody.analysisOk true (JSValue.str "rice")
        (JSValue.str "No response from Gemini.") :=
  analyzeSoil_empty_text_falls_back sampleBody
    ⟨some ⟨some [⟨some ⟨some [⟨some (JSValue.str "")⟩]⟩⟩]⟩⟩ rfl rfl

/-- C10: validation tests the eight numeric fields only against
undefined, so null or string values pass and the prompt is built from
them, while the crop name must be truthy: a crop name present but equal
to the empty string, the number 0 or the boolean false is rejected with
the 400 response. -/
theorem analyzeSoil_presence_not_type_validation (b : RequestBody)
    (u : Except JsError AxiosResponse) :
    ((b.temperature ≠ JSValue.undefined ∧ b.humidity ≠ JSValue.undefined ∧
      b.moisture ≠ JSValue.undefined ∧ b.nitrogen ≠ JSValue.undefined ∧
      b.phosphorus ≠ JSValue.undefined ∧ b.potassium ≠ JSValue.undefined ∧
      b.ph ≠ JSValue.undefined ∧ b.rainfall ≠ JSValue.undefined ∧
      b.cropName.truthy = true) →
      missingRequiredFields b = false ∧ (handleAnalyzeSoil b u).2 = [buildPrompt b]) ∧
    ((b.cropName = JSValue.str "" ∨ b.cropName = JSValue.num 0 ∨
      b.cropName = JSValue.boolean false) →
      handleAnalyzeSoil b u =
        (⟨400, ResponseBody.validationError "Missing required fields in the request body."⟩,
          [])) := by
  constructor
  · rintro ⟨h1, h2, h3, h4, h5, h6, h7, h8, h9⟩
    have hm : missingRequiredFields b = false := by
      simp [missingRequiredFields, JSValue.isUndefined_eq_false h1,
        JSValue.isUndefined_eq_false h2, JSValue.isUndefined_eq_false h3,
        JSValue.isUndefined_eq_false h4, JSValue.isUndefined_eq_false h5,
        JSValue.isUndefined_eq_false h6, JSValue.isUndefined_eq_false h7,
        JSValue.isUndefined_eq_false h8, h9]
    refine ⟨hm, ?_⟩
    rw [handleAnalyzeSoil_trace, hm]
    simp
  · intro h
    have hm : missingRequiredFields b = true := by
      rcases h with h | h | h <;> simp [missingRequiredFields, h, JSValue.truthy]
    simp [handleAnalyzeSoil, hm]

/-- C10 witness: a payload whose numeric fields are all null with crop
name rice passes validation and forwards a prompt, while the same
payload with crop name 0 is rejected with 400. -/
theorem analyzeSoil_presence_not_type_validation_witness :
    (missingRequiredFields
        ⟨JSValue.null, JSValue.null, JSValue.null, JSValue.null, JSValue.null,
          JSValue.null, JSValue.null, JSValue.null, JSValue.str "rice"⟩ = false) ∧
    (handleAnalyzeSoil
        ⟨JSValue.num 25, JSValue.num 60, JSValue.num 40, JSValue.num 50, JSValue.num 30,
          JSValue.num 20, JSValue.num (13 / 2), JSValue.num 100, JSValue.num 0⟩
        (Except.error netErr) =
      (⟨400, ResponseBody.validationError "Missing required fields in the request body."⟩,
        [])) :=
  ⟨((analyzeSoil_presence_not_type_validation
        ⟨JSValue.null, JSValue.null, JSValue.null, JSValue.null, JSValue.null,
          JSValue.null, JSValue.null, JSValue.null, JSValue.str "rice"⟩
        (Except.error netErr)).1
      ⟨by simp, by simp, by simp, by simp, by simp, by simp, by simp, by simp, rfl⟩).1,
    (analyzeSoil_presence_not_type_validation _ _).2 (Or.inr (Or.inl rfl))⟩
